import Mathlib

/-!
# Verification of the cluster-assignment and recommendation core

Shallow embedding of the numerical core of the training-needs dashboard:

* `utils.py` — `predict_cluster`, `get_clustering_model` (rating clamping,
  feature extraction, scaling, nearest-centroid assignment);
* `self_assessment.py` — the recommendation computation of
  `show_self_assessment` (per-domain averages, gaps, priority, ranking);
* `recommendations.py` — the recommendation computation of
  `show_recommendations` (per-cluster averages, gaps, priority, ranking);
* `config.py` — the constants the above consume.

Numbers are modelled as rationals (`ℚ`); a dataset is a list of total
row functions from column names to values, so every cell is present
(the pandas `fillna` steps of the source are no-ops in this model and
are noted where they occur).  The Streamlit rendering around the
computations is elided: each embedded page function returns the list of
recommendation records the page would display, in display order.
-/

/-- Priority levels of a recommendation (`'URGENT' | 'HIGH' | 'MEDIUM' | 'LOW'`
string tags in the source). -/
inductive Priority where
  | LOW
  | MEDIUM
  | HIGH
  | URGENT
deriving DecidableEq

/-- `priority_order = {'URGENT': 4, 'HIGH': 3, 'MEDIUM': 2, 'LOW': 1}`
(self_assessment.py line 175); the `.get(_, 0)` default is never hit since
the map is total on the four tags. -/
def priority_order : Priority → ℕ
  | .URGENT => 4
  | .HIGH => 3
  | .MEDIUM => 2
  | .LOW => 1

/-- The priority tier chain shared by self_assessment.py lines 157-164 and
recommendations.py lines 53-60: URGENT if `avg >= 4.5`, else HIGH if
`avg >= 4.0`, else MEDIUM if `avg >= 3.5 or gap > 0.5`, else LOW. -/
def priorityOf (avg gap : ℚ) : Priority :=
  if avg ≥ 4.5 then .URGENT
  else if avg ≥ 4.0 then .HIGH
  else if avg ≥ 3.5 ∨ gap > 0.5 then .MEDIUM
  else .LOW

/-- A recommendation record as assembled by both pages: domain id, the
cohort average rating (`avg_rating` / `cluster_avg`), the gap, and the
priority tag.  The `name` / `competencies` fields are display payload
derived from `domain` and are elided. -/
structure Recommendation where
  domain : String
  avg : ℚ
  gap : ℚ
  priority : Priority
deriving DecidableEq

/-- Inclusion test of self_assessment.py line 156:
`if domain_avg >= 3.5 or gap > 0.3`. -/
def selfIncluded (avg gap : ℚ) : Bool :=
  avg ≥ 3.5 ∨ gap > 0.3

/-- Inclusion test of recommendations.py line 52:
`if gap > 0.3 or cluster_avg >= 3.5`. -/
def recIncluded (avg gap : ℚ) : Bool :=
  gap > 0.3 ∨ avg ≥ 3.5

/-- Build the (unsorted) recommendation list of self_assessment.py
lines 149-172 from the per-domain `(domain, avg, gap)` statistics. -/
def buildSelfRecs (stats : List (String × ℚ × ℚ)) : List Recommendation :=
  stats.filterMap fun t =>
    if selfIncluded t.2.1 t.2.2 then
      some ⟨t.1, t.2.1, t.2.2, priorityOf t.2.1 t.2.2⟩
    else none

/-- Build the (unsorted) recommendation list of recommendations.py
lines 46-69 from the per-domain `(domain, cluster_avg, gap)` statistics. -/
def buildRecRecs (stats : List (String × ℚ × ℚ)) : List Recommendation :=
  stats.filterMap fun t =>
    if recIncluded t.2.1 t.2.2 then
      some ⟨t.1, t.2.1, t.2.2, priorityOf t.2.1 t.2.2⟩
    else none

/-- Sort relation of self_assessment.py line 176:
`sort(key=lambda x: (priority_order[x.priority], x.avg_rating), reverse=True)`,
i.e. descending lexicographic order on the pair (priority weight, average).
`selfSortGe a b` holds when `a` may precede `b` in the output. -/
def selfSortGe (a b : Recommendation) : Prop :=
  priority_order b.priority < priority_order a.priority ∨
    (priority_order a.priority = priority_order b.priority ∧ b.avg ≤ a.avg)

/-- Sort relation of recommendations.py line 76:
`sorted(key=lambda x: (x.cluster_avg, x.gap), reverse=True)`, i.e. descending
lexicographic order on the pair (cluster average, gap). -/
def recSortGe (a b : Recommendation) : Prop :=
  b.avg < a.avg ∨ (a.avg = b.avg ∧ b.gap ≤ a.gap)

instance : DecidableRel selfSortGe := fun a b => by
  unfold selfSortGe; exact inferInstance

instance : DecidableRel recSortGe := fun a b => by
  unfold recSortGe; exact inferInstance

instance : IsTotal Recommendation selfSortGe where
  total a b := by
    unfold selfSortGe
    rcases lt_trichotomy (priority_order a.priority) (priority_order b.priority) with h | h | h
    · exact Or.inr (Or.inl h)
    · rcases le_total b.avg a.avg with h2 | h2
      · exact Or.inl (Or.inr ⟨h, h2⟩)
      · exact Or.inr (Or.inr ⟨h.symm, h2⟩)
    · exact Or.inl (Or.inl h)

instance : IsTrans Recommendation selfSortGe where
  trans a b c hab hbc := by
    unfold selfSortGe at *
    rcases hab with h | ⟨he, ha⟩ <;> rcases hbc with h2 | ⟨he2, ha2⟩
    · exact Or.inl (h2.trans h)
    · exact Or.inl (he2 ▸ h)
    · exact Or.inl (he ▸ h2)
    · exact Or.inr ⟨he.trans he2, ha2.trans ha⟩

instance : IsTotal Recommendation recSortGe where
  total a b := by
    unfold recSortGe
    rcases lt_trichotomy a.avg b.avg with h | h | h
    · exact Or.inr (Or.inl h)
    · rcases le_total b.gap a.gap with h2 | h2
      · exact Or.inl (Or.inr ⟨h, h2⟩)
      · exact Or.inr (Or.inr ⟨h.symm, h2⟩)
    · exact Or.inl (Or.inl h)

instance : IsTrans Recommendation recSortGe where
  trans a b c hab hbc := by
    unfold recSortGe at *
    rcases hab with h | ⟨he, ha⟩ <;> rcases hbc with h2 | ⟨he2, ha2⟩
    · exact Or.inl (h2.trans h)
    · exact Or.inl (he2 ▸ h)
    · exact Or.inl (he ▸ h2)
    · exact Or.inr ⟨he.trans he2, ha2.trans ha⟩

/-! ## Dataset model and domain grouping -/

/-- A loaded dataset (`pandas.DataFrame`): a column header and a list of
rows, each row a total assignment of a rational value to every column
name (cells are all present, so the `fillna` imputation steps of the
source are no-ops in this model).  The pre-assigned cluster label lives
in the `"Cluster"` column. -/
structure DataFrame where
  header : List String
  rows : List (String → ℚ)

/-- Mean of a list of values (`pandas`/`numpy` mean).  Over `ℚ`, division
by zero yields `0`, so the empty mean is `0` rather than `NaN`; claims
about means carry nonemptiness hypotheses where it matters. -/
def listMean (l : List ℚ) : ℚ :=
  l.sum / l.length

/-- Column mean over all rows of the dataset (`df[col].mean()`). -/
def colMean (df : DataFrame) (c : String) : ℚ :=
  listMean (df.rows.map fun r => r c)

/-- The hardcoded domain-id prefix tuple of utils.py line 159,
self_assessment.py line 54 and recommendations.py line 40. -/
def domainPrefixes : List String :=
  ["1.", "2.", "3.", "4.", "5.", "6.", "7.", "8.", "9.", "10.", "11.", "12.", "13."]

/-- Python `c.startswith(p)`: `p`'s characters are a prefix of `c`'s
(stated on the character lists, which evaluate in the kernel). -/
def pyStartsWith (c p : String) : Bool :=
  p.data.isPrefixOf c.data

/-- `col.startswith(('1.', ..., '13.'))`. -/
def isCompetencyCol (c : String) : Bool :=
  domainPrefixes.any fun p => pyStartsWith c p

/-- `competency_cols = [col for col in df.columns if col.startswith(...)]`. -/
def competencyColsOf (df : DataFrame) : List String :=
  df.header.filter isCompetencyCol

/-- `col.split('.')[0]`: the first component of the split, i.e. the
longest dot-free prefix of the column name (the whole name when it has
no dot). -/
def domainOf (c : String) : String :=
  ⟨c.data.takeWhile fun ch => ch ≠ '.'⟩

/-- Remove duplicates keeping the first occurrence of each element, like
the insertion order of the `domain_mapping` dict keys. -/
def dedupFirst : List String → List String
  | [] => []
  | x :: xs => x :: (dedupFirst xs).filter (fun y => y ≠ x)

/-- Python `int(s)` on the decimal-digit strings that domain ids are. -/
def intKey (s : String) : ℕ :=
  s.data.foldl (fun n c => n * 10 + (c.toNat - 48)) 0

/-- `sorted(..., key=int)` comparison on domain-id strings. -/
def intKeyLe (a b : String) : Prop :=
  intKey a ≤ intKey b

instance : DecidableRel intKeyLe := fun a b => by
  unfold intKeyLe; exact inferInstance

instance : IsTotal String intKeyLe where
  total _ _ := Nat.le_total _ _

instance : IsTrans String intKeyLe where
  trans _ _ _ hab hbc := Nat.le_trans hab hbc

/-- The `domain_mapping` dict of self_assessment.py lines 60-65 /
recommendations.py lines 38-44, iterated in `sorted(..., key=int)` key
order as both call sites do: each domain id paired with its competency
columns in header order. -/
def domain_mapping (cols : List String) : List (String × List String) :=
  (List.insertionSort intKeyLe (dedupFirst (cols.map domainOf))).map
    fun d => (d, cols.filter fun c => domainOf c = d)

/-- `cluster_data = df[df['Cluster'] == selected_cluster]`
(recommendations.py line 30). -/
def clusterRows (df : DataFrame) (cluster : ℚ) : List (String → ℚ) :=
  df.rows.filter fun r => r ("Cluster") = cluster

/-- Per-domain `(domain, cluster_avg, gap)` statistics of
recommendations.py lines 47-50: `cluster_avg = cluster_data[cols].mean().mean()`,
`overall_avg = df[cols].mean().mean()`, `gap = cluster_avg - overall_avg`. -/
def recDomainStats (df : DataFrame) (cluster : ℚ) : List (String × ℚ × ℚ) :=
  (domain_mapping (competencyColsOf df)).map fun p =>
    let cluster_avg := listMean (p.2.map fun c => listMean ((clusterRows df cluster).map fun r => r c))
    let overall_avg := listMean (p.2.map (colMean df))
    (p.1, cluster_avg, cluster_avg - overall_avg)

/-- The ranked recommendation list that `show_recommendations`
(recommendations.py) displays for a selected cluster: build the included
records, then `sorted(key=lambda x: (x['cluster_avg'], x['gap']), reverse=True)`
(line 76). -/
def show_recommendations (df : DataFrame) (cluster : ℚ) : List Recommendation :=
  List.insertionSort recSortGe (buildRecRecs (recDomainStats df cluster))

/-- Per-domain `(domain, domain_avg, gap)` statistics of
self_assessment.py lines 149-154 for one respondent `resp`:
`domain_avg = np.mean([assessment_data[col] for col in cols])`,
`overall_avg = df[cols].mean().mean()`, `gap = domain_avg - overall_avg`. -/
def selfDomainStats (df : DataFrame) (resp : String → ℚ) : List (String × ℚ × ℚ) :=
  (domain_mapping (competencyColsOf df)).map fun p =>
    let domain_avg := listMean (p.2.map resp)
    let overall_avg := listMean (p.2.map (colMean df))
    (p.1, domain_avg, domain_avg - overall_avg)

/-- The ranked recommendation list that `show_self_assessment`
(self_assessment.py) displays after a submission: build the included
records, then `sort(key=lambda x: (priority_order.get(x['priority'], 0),
x['avg_rating']), reverse=True)` (line 176). -/
def show_self_assessment (df : DataFrame) (resp : String → ℚ) : List Recommendation :=
  List.insertionSort selfSortGe (buildSelfRecs (selfDomainStats df resp))

/-! ## Clamping, scaling and cluster prediction (utils.py) -/

/-- `max(1, min(5, value))` (utils.py line 218). -/
def clampRating (q : ℚ) : ℚ :=
  max 1 (min 5 q)

/-- The value `predict_cluster` puts into `feature_dict` for one schema
feature (utils.py lines 210-225).  The input maps each present key to
`some v` when the raw value parses as a number `v` (`float(value)`
succeeds) and to `none` when it does not (`ValueError`/`TypeError`);
absent keys map to `none` at the outer level.  Parsed values are clamped
into `[1, 5]`; unparseable and missing values default to `3`. -/
def featureValue (new_data : String → Option (Option ℚ)) (feature : String) : ℚ :=
  match new_data feature with
  | some (some v) => clampRating v
  | some none => 3
  | none => 3

/-- The per-feature statistics a fitted `StandardScaler` stores:
`mean_` and the per-column standard deviation from which `scale_` is
derived. -/
structure FittedScaler where
  mean : List ℚ
  std : List ℚ
deriving DecidableEq

/-- Modelled from the spec: `StandardScaler.transform` is sklearn library
code, not part of `src/`.  Per the spec (section 4.2 and the
`FittedScaler` data-model entry), it subtracts the stored mean and
divides by the stored standard deviation per feature, with a
zero-variance feature scaled by `1` instead of its zero standard
deviation (no division by zero). -/
def scalerTransform (sc : FittedScaler) (x : List ℚ) : List ℚ :=
  List.zipWith (fun xi p => (xi - p.1) / (if p.2 = 0 then 1 else p.2)) x (sc.mean.zip sc.std)

/-- Squared Euclidean distance between two feature vectors. -/
def sqDist (x y : List ℚ) : ℚ :=
  (List.zipWith (fun a b => (a - b) ^ 2) x y).sum

/-- Index of the first minimum of a list (`numpy.argmin`); `0` on `[]`. -/
def argminIdx : List ℚ → ℕ
  | [] => 0
  | [_] => 0
  | x :: y :: ys =>
    if x ≤ (y :: ys).getD (argminIdx (y :: ys)) y then 0
    else argminIdx (y :: ys) + 1

/-- Modelled from the spec: `KMeans.predict` is sklearn library code, not
part of `src/`.  Per the spec (section 4.3), it returns the index of the
nearest centroid in Euclidean distance, lowest index on ties. -/
def kmeans_predict (centroids : List (List ℚ)) (x : List ℚ) : ℕ :=
  argminIdx (centroids.map (sqDist x))

/-- `predict_cluster(new_data, kmeans, scaler, features)` (utils.py
lines 195-236): build the clamped/defaulted feature vector in schema
order, scale it with the fitted scaler, and return the nearest centroid
index.  The `X_new.fillna(...)` step is a no-op here since every entry of
the assembled vector is a concrete rational. -/
def predict_cluster (new_data : String → Option (Option ℚ))
    (centroids : List (List ℚ)) (sc : FittedScaler) (features : List String) : ℕ :=
  kmeans_predict centroids (scalerTransform sc (features.map (featureValue new_data)))

/-- `NUM_CLUSTERS = 3` (config.py line 31). -/
def NUM_CLUSTERS : ℕ := 3

/-- Failure modes of `get_clustering_model`.  `schemaError` is the error
the spec's taxonomy (section 7) prescribes for a dataset with no
competency columns; the other two are the two `raise ValueError` sites
actually present in utils.py (lines 171 and 179). -/
inductive ClusteringError where
  | schemaError
  | missingFeaturesError
  | emptyMatrixError
deriving DecidableEq

/-- `get_clustering_model(df)` (utils.py lines 147-192), parametric in
the external sklearn fitting routines (`StandardScaler.fit`,
`KMeans.fit`): select the competency columns (an empty selection is only
logged as a warning, line 162), check for features missing from the
dataset (line 168; vacuous, as the features are drawn from the header),
build the feature matrix (`fillna` is a no-op on total rows), raise if
the matrix is empty on either axis (pandas `DataFrame.empty`, line 178),
then fit the scaler and the clustering model on the scaled matrix. -/
def get_clustering_model (fitScaler : List (List ℚ) → FittedScaler)
    (fitKMeans : List (List ℚ) → List (List ℚ)) (df : DataFrame) :
    Except ClusteringError (List (List ℚ) × FittedScaler × List String) :=
  let features := competencyColsOf df
  let missing_features := features.filter fun f => ¬ f ∈ df.header
  if missing_features ≠ [] then .error .missingFeaturesError
  else
    let X := df.rows.map fun r => features.map r
    if X = [] ∨ features = [] then .error .emptyMatrixError
    else
      let sc := fitScaler X
      .ok (fitKMeans (X.map (scalerTransform sc)), sc, features)

/-! ## Concrete sample data for witnesses and counterexamples -/

/-- A row with cluster label `cl` and ratings `a` and `b` for the two
competency columns `"1.a"` and `"2.b"`. -/
def mkRow (cl a b : ℚ) : String → ℚ := fun s =>
  if s = "Cluster" then cl
  else if s = "1.a" then a
  else if s = "2.b" then b
  else 0

/-- A small concrete dataset with two competency domains and two
clusters; all ratings are integers in `[1, 5]`.  Cluster `0` averages
`3.4` on domain `1` (overall average `3.0`, gap `0.4`) and `3.0` on
domain `2` (overall average `2.4`, gap `0.6`). -/
def sampleDF : DataFrame where
  header := ["Cluster", "1.a", "2.b"]
  rows := [mkRow 0 3 3, mkRow 0 3 3, mkRow 0 3 3, mkRow 0 4 3, mkRow 0 4 3,
           mkRow 1 2 1, mkRow 1 3 2, mkRow 1 3 2, mkRow 1 3 2, mkRow 1 2 2]

/-- A concrete self-assessment respondent: rating `4` on `"1.a"` and `5`
on every other key (in particular on `"2.b"`). -/
def sampleResp : String → ℚ := fun s =>
  if s = "1.a" then 4 else 5

/-- Concrete raw self-assessment input for `predict_cluster`: feature
`"1.a"` parses to `7`, the extra `"Timestamp"` entry holds a date string
that does not parse as a number, and every other key is absent. -/
def sampleInput : String → Option (Option ℚ) := fun s =>
  if s = "1.a" then some (some 7)
  else if s = "Timestamp" then some none
  else none

/-- The same assessment as `sampleInput` without the `"Timestamp"`
entry. -/
def sampleInputNoTs : String → Option (Option ℚ) := fun s =>
  if s = "1.a" then some (some 7) else none

/-- Three concrete one-dimensional centroids. -/
def sampleCentroids : List (List ℚ) :=
  [[0], [1], [2]]

/-- A concrete fitted scaler for one feature. -/
def sampleScaler : FittedScaler :=
  ⟨[3], [1]⟩

/-- A concrete fitted scaler for two features, the first with standard
deviation zero. -/
def sampleScaler2 : FittedScaler :=
  ⟨[3, 4], [0, 2]⟩

/-- A dataset whose header contains no competency column. -/
def noCompDF : DataFrame where
  header := ["Cluster", "Name"]
  rows := [fun _ => 0]

/-- A stand-in for the external scaler fit, used to close statements
about the error paths of `get_clustering_model` (never reached there). -/
def stubFitScaler : List (List ℚ) → FittedScaler := fun _ =>
  ⟨[], []⟩

/-- A stand-in for the external k-means fit, used to close statements
about the error paths of `get_clustering_model` (never reached there). -/
def stubFitKMeans : List (List ℚ) → List (List ℚ) := fun _ =>
  []
theorem priorityOf_urgent (avg gap : ℚ) :
    priorityOf avg gap = .URGENT ↔ avg ≥ 4.5 := by
  unfold priorityOf
  split_ifs with h1 h2 h3 <;> simp_all

theorem priorityOf_high (avg gap : ℚ) :
    priorityOf avg gap = .HIGH ↔ 4.0 ≤ avg ∧ avg < 4.5 := by
  unfold priorityOf
  split_ifs with h1 h2 h3
  · exact ⟨fun h => (nomatch h), fun h => absurd h1 (not_le.mpr h.2)⟩
  · exact ⟨fun _ => ⟨h2, not_le.mp h1⟩, fun _ => rfl⟩
  · exact ⟨fun h => (nomatch h), fun h => absurd h.1 h2⟩
  · exact ⟨fun h => (nomatch h), fun h => absurd h.1 h2⟩

theorem priorityOf_medium (avg gap : ℚ) :
    priorityOf avg gap = .MEDIUM ↔ avg < 4.0 ∧ (avg ≥ 3.5 ∨ gap > 0.5) := by
  unfold priorityOf
  split_ifs with h1 h2 h3
  · exact ⟨fun h => (nomatch h), fun h => absurd h1 (by linarith [h.1])⟩
  · exact ⟨fun h => (nomatch h), fun h => absurd h2 (not_le.mpr h.1)⟩
  · exact ⟨fun _ => ⟨not_le.mp h2, h3⟩, fun _ => rfl⟩
  · exact ⟨fun h => (nomatch h), fun h => absurd h.2 h3⟩

theorem priorityOf_low (avg gap : ℚ) :
    priorityOf avg gap = .LOW ↔ avg < 3.5 ∧ gap ≤ 0.5 := by
  unfold priorityOf
  split_ifs with h1 h2 h3
  · exact ⟨fun h => (nomatch h), fun h => absurd h1 (by linarith [h.1])⟩
  · exact ⟨fun h => (nomatch h), fun h => absurd h2 (by linarith [h.1])⟩
  · exact ⟨fun h => (nomatch h),
      fun h => absurd h3 (not_or.mpr ⟨not_le.mpr h.1, not_lt.mpr h.2⟩)⟩
  · rcases not_or.mp h3 with ⟨hna, hng⟩
    exact ⟨fun _ => ⟨not_le.mp hna, not_lt.mp hng⟩, fun _ => rfl⟩


/-! ## Helper lemmas -/

theorem selfIncluded_iff (avg gap : ℚ) :
    selfIncluded avg gap = true ↔ (gap > 0.3 ∨ avg ≥ 3.5) := by
  simp [selfIncluded]
  exact Or.comm

theorem recIncluded_iff (avg gap : ℚ) :
    recIncluded avg gap = true ↔ (gap > 0.3 ∨ avg ≥ 3.5) := by
  simp [recIncluded]

theorem mem_buildSelfRecs (stats : List (String × ℚ × ℚ)) (r : Recommendation) :
    r ∈ buildSelfRecs stats ↔
      ∃ t ∈ stats, (t.2.2 > 0.3 ∨ t.2.1 ≥ 3.5) ∧
        r = ⟨t.1, t.2.1, t.2.2, priorityOf t.2.1 t.2.2⟩ := by
  unfold buildSelfRecs
  simp only [List.mem_filterMap]
  constructor
  · rintro ⟨t, ht, he⟩
    by_cases hc : selfIncluded t.2.1 t.2.2
    · rw [if_pos hc, Option.some_inj] at he
      exact ⟨t, ht, (selfIncluded_iff _ _).mp hc, he.symm⟩
    · rw [if_neg hc] at he
      exact absurd he (Option.noConfusion)
  · rintro ⟨t, ht, hc, he⟩
    refine ⟨t, ht, ?_⟩
    rw [if_pos ((selfIncluded_iff _ _).mpr hc), he]

theorem mem_buildRecRecs (stats : List (String × ℚ × ℚ)) (r : Recommendation) :
    r ∈ buildRecRecs stats ↔
      ∃ t ∈ stats, (t.2.2 > 0.3 ∨ t.2.1 ≥ 3.5) ∧
        r = ⟨t.1, t.2.1, t.2.2, priorityOf t.2.1 t.2.2⟩ := by
  unfold buildRecRecs
  simp only [List.mem_filterMap]
  constructor
  · rintro ⟨t, ht, he⟩
    by_cases hc : recIncluded t.2.1 t.2.2
    · rw [if_pos hc, Option.some_inj] at he
      exact ⟨t, ht, (recIncluded_iff _ _).mp hc, he.symm⟩
    · rw [if_neg hc] at he
      exact absurd he (Option.noConfusion)
  · rintro ⟨t, ht, hc, he⟩
    refine ⟨t, ht, ?_⟩
    rw [if_pos ((recIncluded_iff _ _).mpr hc), he]

theorem argminIdx_lt : ∀ (l : List ℚ), l ≠ [] → argminIdx l < l.length
  | [], h => absurd rfl h
  | [_], _ => by simp [argminIdx]
  | x :: y :: ys, _ => by
    have ih := argminIdx_lt (y :: ys) (by simp)
    unfold argminIdx
    split
    · simp
    · simp only [List.length_cons] at ih ⊢
      omega

theorem getD_zipWith (f : ℚ → ℚ × ℚ → ℚ) :
    ∀ (l1 : List ℚ) (l2 : List (ℚ × ℚ)) (i : ℕ), i < l1.length → i < l2.length →
      (List.zipWith f l1 l2).getD i 0 = f (l1.getD i 0) (l2.getD i (0, 0))
  | [], _, i, h1, _ => absurd h1 (by simp)
  | _ :: _, [], i, _, h2 => absurd h2 (by simp)
  | a :: l1, b :: l2, 0, _, _ => rfl
  | a :: l1, b :: l2, i + 1, h1, h2 => by
    simpa using getD_zipWith f l1 l2 i (by simpa using h1) (by simpa using h2)

theorem getD_zip : ∀ (l1 l2 : List ℚ) (i : ℕ), i < l1.length → i < l2.length →
      (l1.zip l2).getD i (0, 0) = (l1.getD i 0, l2.getD i 0)
  | [], _, i, h1, _ => absurd h1 (by simp)
  | _ :: _, [], i, _, h2 => absurd h2 (by simp)
  | a :: l1, b :: l2, 0, _, _ => rfl
  | a :: l1, b :: l2, i + 1, h1, h2 => by
    simpa using getD_zip l1 l2 i (by simpa using h1) (by simpa using h2)

theorem sum_map_div (l : List ℚ) (d : ℚ) :
    (l.map fun x => x / d).sum = l.sum / d := by
  induction l with
  | nil => simp
  | cons x xs ih => simp [ih, add_div]

/-! ## Claim theorems -/

/-- C1: in both recommendation pipelines a domain is included in the
output list iff `gap > 0.3` or `avg >= 3.5`, and among included domains
the priority is URGENT iff `avg >= 4.5`, HIGH iff `4.0 <= avg < 4.5`,
MEDIUM iff `avg < 4.0` and (`avg >= 3.5` or `gap > 0.5`), and LOW
otherwise (`avg < 3.5` and `gap <= 0.5`) — the spec's fixed-order
policy. -/
theorem C1_priority_policy (df : DataFrame) (resp : String → ℚ) (cluster : ℚ)
    (r : Recommendation) :
    (r ∈ show_self_assessment df resp ↔
      ∃ t ∈ selfDomainStats df resp, (t.2.2 > 0.3 ∨ t.2.1 ≥ 3.5) ∧
        r = ⟨t.1, t.2.1, t.2.2, priorityOf t.2.1 t.2.2⟩) ∧
    (r ∈ show_recommendations df cluster ↔
      ∃ t ∈ recDomainStats df cluster, (t.2.2 > 0.3 ∨ t.2.1 ≥ 3.5) ∧
        r = ⟨t.1, t.2.1, t.2.2, priorityOf t.2.1 t.2.2⟩) ∧
    (∀ avg gap : ℚ,
      (priorityOf avg gap = .URGENT ↔ avg ≥ 4.5) ∧
      (priorityOf avg gap = .HIGH ↔ 4.0 ≤ avg ∧ avg < 4.5) ∧
      (priorityOf avg gap = .MEDIUM ↔ avg < 4.0 ∧ (avg ≥ 3.5 ∨ gap > 0.5)) ∧
      (priorityOf avg gap = .LOW ↔ avg < 3.5 ∧ gap ≤ 0.5)) := by
  refine ⟨?_, ?_, fun avg gap => ⟨priorityOf_urgent avg gap, priorityOf_high avg gap,
    priorityOf_medium avg gap, priorityOf_low avg gap⟩⟩
  · rw [show_self_assessment, (List.perm_insertionSort selfSortGe _).mem_iff]
    exact mem_buildSelfRecs _ r
  · rw [show_recommendations, (List.perm_insertionSort recSortGe _).mem_iff]
    exact mem_buildRecRecs _ r

/-- C1 witness: on the concrete `sampleDF` with respondent `sampleResp`,
domain `"2"` (average `5`, gap `13/5`) is included in the
self-assessment output with its computed priority. -/
theorem C1_priority_policy_witness :
    (⟨"2", 5, 13/5, priorityOf 5 (13/5)⟩ : Recommendation) ∈
      show_self_assessment sampleDF sampleResp := by
  refine (C1_priority_policy sampleDF sampleResp 0 _).1.mpr
    ⟨("2", 5, 13/5), ?_, by norm_num, rfl⟩
  have h1 : domain_mapping (competencyColsOf sampleDF) =
      [("1", ["1.a"]), ("2", ["2.b"])] := by decide
  rw [selfDomainStats, h1]
  simp [sampleDF, mkRow, sampleResp, colMean, listMean]
  norm_num

/-- C2 counterexample: for `sampleDF` and cluster `0` the
recommendations page outputs the LOW-priority domain `"1"`
(avg `3.4`, gap `0.4`) before the MEDIUM-priority domain `"2"`
(avg `3.0`, gap `0.6`), so the output is not sorted descending by
(priority weight, average rating) as the claim states. -/
theorem C2_ranking_counterexample :
    show_recommendations sampleDF 0 =
      [⟨"1", 17/5, 2/5, .LOW⟩, ⟨"2", 3, 3/5, .MEDIUM⟩] ∧
    ¬ List.Sorted selfSortGe (show_recommendations sampleDF 0) := by
  have h1 : domain_mapping (competencyColsOf sampleDF) =
      [("1", ["1.a"]), ("2", ["2.b"])] := by decide
  have h2 : clusterRows sampleDF 0 =
      [mkRow 0 3 3, mkRow 0 3 3, mkRow 0 3 3, mkRow 0 4 3, mkRow 0 4 3] := by
    simp [clusterRows, sampleDF, mkRow]
  have h3 : recDomainStats sampleDF 0 = [("1", 17/5, 2/5), ("2", 3, 3/5)] := by
    rw [recDomainStats, h1, h2]
    simp [sampleDF, mkRow, colMean, listMean]
    norm_num
  have h4 : show_recommendations sampleDF 0 =
      [⟨"1", 17/5, 2/5, .LOW⟩, ⟨"2", 3, 3/5, .MEDIUM⟩] := by
    rw [show_recommendations, h3]
    norm_num [buildRecRecs, recIncluded, priorityOf, List.filterMap_cons,
      List.insertionSort, List.orderedInsert, recSortGe]
  refine ⟨h4, ?_⟩
  rw [h4]
  simp [List.Sorted, List.pairwise_cons, selfSortGe, priority_order]

/-- C2 amended: the self-assessment output is sorted descending by
(priority weight, average rating), while the per-cluster recommendations
page output is sorted descending by (cluster average, gap). -/
theorem C2_ranking_amended (df : DataFrame) (resp : String → ℚ) (cluster : ℚ) :
    List.Sorted selfSortGe (show_self_assessment df resp) ∧
    List.Sorted recSortGe (show_recommendations df cluster) :=
  ⟨List.sorted_insertionSort selfSortGe _, List.sorted_insertionSort recSortGe _⟩

/-- C3: the value `predict_cluster` uses downstream for a schema feature
always lies in `[1, 5]`; a present but unparseable value maps to exactly
`3`, a missing feature maps to exactly `3`, and a parsed value `v` is
used as `max 1 (min 5 v)`. -/
theorem C3_clamping (new_data : String → Option (Option ℚ)) (feature : String) :
    (1 ≤ featureValue new_data feature ∧ featureValue new_data feature ≤ 5) ∧
    (new_data feature = some none → featureValue new_data feature = 3) ∧
    (new_data feature = none → featureValue new_data feature = 3) ∧
    (∀ v : ℚ, new_data feature = some (some v) →
      featureValue new_data feature = max 1 (min 5 v)) := by
  have hval : ∀ v : ℚ, 1 ≤ clampRating v ∧ clampRating v ≤ 5 := fun v =>
    ⟨le_max_left 1 _, max_le (by norm_num) (min_le_left 5 v)⟩
  refine ⟨?_, fun h => by simp [featureValue, h],
    fun h => by simp [featureValue, h],
    fun v h => by simp [featureValue, h, clampRating]⟩
  rcases h : new_data feature with _ | v2
  · refine ⟨?_, ?_⟩ <;> norm_num [featureValue, h]
  · rcases v2 with _ | v
    · refine ⟨?_, ?_⟩ <;> norm_num [featureValue, h]
    · have := hval v
      refine ⟨?_, ?_⟩ <;> simp [featureValue, h] <;> tauto

/-- C3 witness: the unparseable `"Timestamp"` entry of `sampleInput`
maps to exactly `3`. -/
theorem C3_clamping_witness :
    featureValue sampleInput ("Timestamp") = 3 :=
  (C3_clamping sampleInput ("Timestamp")).2.1 (by decide)

/-- C4: in both pipelines the reported domain entry has
`gap = cohort_average − overall_average`, where the overall average is
taken over the entire dataset and equals the mean over all the domain's
cells (product of column count and row count in the denominator); for
the single self-assessed respondent the cohort average is the mean of
that respondent's ratings over the domain's competency columns. -/
theorem C4_gap_semantics (df : DataFrame) (resp : String → ℚ) (cluster : ℚ)
    (p : String × List String) (hp : p ∈ domain_mapping (competencyColsOf df)) :
    (p.1, listMean (p.2.map resp),
      listMean (p.2.map resp) - listMean (p.2.map (colMean df))) ∈
        selfDomainStats df resp ∧
    (p.1, listMean (p.2.map fun c => listMean ((clusterRows df cluster).map fun r => r c)),
      listMean (p.2.map fun c => listMean ((clusterRows df cluster).map fun r => r c)) -
        listMean (p.2.map (colMean df))) ∈ recDomainStats df cluster ∧
    listMean (p.2.map (colMean df)) =
      (p.2.map fun c => (df.rows.map fun r => r c).sum).sum /
        ((p.2.length : ℚ) * (df.rows.length : ℚ)) := by
  refine ⟨List.mem_map.mpr ⟨p, hp, rfl⟩, List.mem_map.mpr ⟨p, hp, rfl⟩, ?_⟩
  unfold colMean listMean
  simp only [List.length_map]
  rw [show (p.2.map fun c => (df.rows.map fun r => r c).sum / (df.rows.length : ℚ)) =
      ((p.2.map fun c => (df.rows.map fun r => r c).sum).map
        fun x => x / (df.rows.length : ℚ)) by rw [List.map_map]; rfl]
  rw [sum_map_div, div_div, mul_comm]

/-- C4 witness: concrete instantiation on `sampleDF`, domain `"1"` with
its single column `"1.a"`, respondent `sampleResp` and cluster `0`. -/
theorem C4_gap_semantics_witness :
    ("1", listMean (["1.a"].map sampleResp),
      listMean (["1.a"].map sampleResp) -
        listMean (["1.a"].map (colMean sampleDF))) ∈
          selfDomainStats sampleDF sampleResp ∧
    ("1", listMean (["1.a"].map fun c =>
        listMean ((clusterRows sampleDF 0).map fun r => r c)),
      listMean (["1.a"].map fun c =>
        listMean ((clusterRows sampleDF 0).map fun r => r c)) -
        listMean (["1.a"].map (colMean sampleDF))) ∈ recDomainStats sampleDF 0 ∧
    listMean (["1.a"].map (colMean sampleDF)) =
      (["1.a"].map fun c => (sampleDF.rows.map fun r => r c).sum).sum /
        ((["1.a"].length : ℚ) * ((sampleDF.rows.length : ℚ))) :=
  C4_gap_semantics sampleDF sampleResp 0 ("1", ["1.a"]) (by decide)

/-- C6: holding the gap fixed at a value that keeps the domain included
(`gap > 0.3`), the assigned priority is monotone non-decreasing in the
average rating under LOW < MEDIUM < HIGH < URGENT (compared via the
priority weights 1 < 2 < 3 < 4). -/
theorem C6_priority_monotone (gap a1 a2 : ℚ) (_hgap : gap > 0.3) (h12 : a1 ≤ a2) :
    priority_order (priorityOf a1 gap) ≤ priority_order (priorityOf a2 gap) := by
  have pos : ∀ p, 1 ≤ priority_order p := by
    intro p; cases p <;> simp [priority_order]
  cases hp1 : priorityOf a1 gap with
  | LOW => exact pos _
  | MEDIUM =>
    rcases (priorityOf_medium a1 gap).mp hp1 with ⟨_, hd⟩
    cases hp2 : priorityOf a2 gap with
    | LOW =>
      exfalso
      rcases (priorityOf_low a2 gap).mp hp2 with ⟨hl1, hl2⟩
      rcases hd with hd | hd <;> linarith
    | MEDIUM => simp [priority_order]
    | HIGH => simp [priority_order]
    | URGENT => simp [priority_order]
  | HIGH =>
    rcases (priorityOf_high a1 gap).mp hp1 with ⟨hh, _⟩
    cases hp2 : priorityOf a2 gap with
    | LOW =>
      exfalso
      rcases (priorityOf_low a2 gap).mp hp2 with ⟨hl1, _⟩
      linarith
    | MEDIUM =>
      exfalso
      rcases (priorityOf_medium a2 gap).mp hp2 with ⟨hm, _⟩
      linarith
    | HIGH => simp [priority_order]
    | URGENT => simp [priority_order]
  | URGENT =>
    have hu := (priorityOf_urgent a1 gap).mp hp1
    have h2 : priorityOf a2 gap = .URGENT :=
      (priorityOf_urgent a2 gap).mpr (by linarith)
    rw [h2]

/-- C6 witness: concrete monotone instance, `gap = 0.4`, averages `3`
and `4`. -/
theorem C6_priority_monotone_witness :
    (0.4 : ℚ) > 0.3 ∧ (3 : ℚ) ≤ 4 ∧
      priority_order (priorityOf 3 0.4) ≤ priority_order (priorityOf 4 0.4) :=
  ⟨by norm_num, by norm_num,
    C6_priority_monotone 0.4 3 4 (by norm_num) (by norm_num)⟩

/-- C5: for a fitted model whose centroid count is the configured
`NUM_CLUSTERS` (3), `predict_cluster` returns a single cluster id — a
natural number, hence non-negative — strictly below `NUM_CLUSTERS`. -/
theorem C5_prediction_range (new_data : String → Option (Option ℚ))
    (centroids : List (List ℚ)) (sc : FittedScaler) (features : List String)
    (hk : centroids.length = NUM_CLUSTERS) :
    predict_cluster new_data centroids sc features < NUM_CLUSTERS := by
  unfold predict_cluster kmeans_predict
  have hne : centroids.map
      (sqDist (scalerTransform sc (features.map (featureValue new_data)))) ≠ [] := by
    intro hh
    rw [List.map_eq_nil_iff] at hh
    rw [hh] at hk
    simp [NUM_CLUSTERS] at hk
  have hlt := argminIdx_lt _ hne
  rwa [List.length_map, hk] at hlt

/-- C5 witness: a concrete three-centroid model yields a cluster id
below `NUM_CLUSTERS`. -/
theorem C5_prediction_range_witness :
    sampleCentroids.length = NUM_CLUSTERS ∧
      predict_cluster sampleInput sampleCentroids sampleScaler ["1.a"] <
        NUM_CLUSTERS :=
  ⟨rfl, C5_prediction_range sampleInput sampleCentroids sampleScaler ["1.a"] rfl⟩

/-- C7 counterexample: on the concrete dataset `noCompDF`, which has
zero competency columns, `get_clustering_model` fails with the
empty-feature-matrix `ValueError` of utils.py line 179 — not with the
spec's `SchemaError`; the zero-column condition itself is only logged as
a warning (utils.py line 162). -/
theorem C7_schema_error_counterexample :
    get_clustering_model stubFitScaler stubFitKMeans noCompDF =
      .error .emptyMatrixError ∧
    get_clustering_model stubFitScaler stubFitKMeans noCompDF ≠
      .error .schemaError := by
  have h : get_clustering_model stubFitScaler stubFitKMeans noCompDF =
      .error .emptyMatrixError := by rfl
  exact ⟨h, by rw [h]; simp⟩

/-- C7 amended: for every dataset with zero competency columns and any
external fitting routines, `get_clustering_model` fails — with the
empty-feature-matrix error, the zero-column condition itself being only
a logged warning — and no fitted model is produced. -/
theorem C7_no_competency_columns_fails
    (fitScaler : List (List ℚ) → FittedScaler)
    (fitKMeans : List (List ℚ) → List (List ℚ)) (df : DataFrame)
    (h : competencyColsOf df = []) :
    get_clustering_model fitScaler fitKMeans df = .error .emptyMatrixError := by
  unfold get_clustering_model
  rw [h]
  simp

/-- C7 amended-claim witness: the concrete `noCompDF` instantiation. -/
theorem C7_no_competency_columns_fails_witness :
    competencyColsOf noCompDF = [] ∧
      get_clustering_model stubFitScaler stubFitKMeans noCompDF =
        .error .emptyMatrixError :=
  ⟨by decide, C7_no_competency_columns_fails stubFitScaler stubFitKMeans noCompDF
    (by decide)⟩

/-- C8: if the `i`-th stored standard deviation of a fitted scaler is
zero, the `i`-th transformed coordinate is the mean-centered input value
scaled by factor `1` — the zero deviation is never divided by, for every
input vector. -/
theorem C8_zero_variance_passthrough (sc : FittedScaler) (x : List ℚ) (i : ℕ)
    (hx : i < x.length) (hm : i < sc.mean.length) (hs : i < sc.std.length)
    (h0 : sc.std.getD i 0 = 0) :
    (scalerTransform sc x).getD i 0 = x.getD i 0 - sc.mean.getD i 0 := by
  unfold scalerTransform
  rw [getD_zipWith _ x (sc.mean.zip sc.std) i hx
    (by rw [List.length_zip]; omega)]
  rw [getD_zip sc.mean sc.std i hm hs]
  simp only [List.getD_eq_getElem?_getD] at h0 ⊢
  simp [h0]

/-- C8 witness: on `sampleScaler2` (standard deviations `[0, 2]`) and
the input `[5, 6]`, coordinate `0` is passed through mean-centered. -/
theorem C8_zero_variance_passthrough_witness :
    (scalerTransform sampleScaler2 [5, 6]).getD 0 0 =
      (([5, 6] : List ℚ).getD 0 0) - sampleScaler2.mean.getD 0 0 :=
  C8_zero_variance_passthrough sampleScaler2 [5, 6] 0 (by norm_num)
    (by norm_num [sampleScaler2]) (by norm_num [sampleScaler2]) (by decide)

/-- C10: two raw self-assessment inputs that agree on every key of the
fitted feature schema yield the same predicted cluster: entries under
keys outside the schema (such as the form's `'Timestamp'`) have no
effect on the prediction. -/
theorem C10_prediction_ignores_extra_keys (d1 d2 : String → Option (Option ℚ))
    (centroids : List (List ℚ)) (sc : FittedScaler) (features : List String)
    (hagree : ∀ f ∈ features, d1 f = d2 f) :
    predict_cluster d1 centroids sc features =
      predict_cluster d2 centroids sc features := by
  unfold predict_cluster
  have hmap : features.map (featureValue d1) = features.map (featureValue d2) :=
    List.map_congr_left fun f hf => by unfold featureValue; rw [hagree f hf]
  rw [hmap]

/-- C10 witness: `sampleInput` carries an extra `"Timestamp"` entry that
`sampleInputNoTs` lacks; both agree on the schema `["1.a"]` and predict
the same cluster. -/
theorem C10_prediction_ignores_extra_keys_witness :
    (∀ f ∈ ["1.a"], sampleInput f = sampleInputNoTs f) ∧
      predict_cluster sampleInput sampleCentroids sampleScaler ["1.a"] =
        predict_cluster sampleInputNoTs sampleCentroids sampleScaler ["1.a"] :=
  ⟨by decide, C10_prediction_ignores_extra_keys sampleInput sampleInputNoTs
    sampleCentroids sampleScaler ["1.a"] (by decide)⟩
